import Mathlib

/-!
Shallow embedding of the MCP (Multi-Component Protocol) server core of the
repository: `backend/app/services/mcp_server.py` (registries, dispatcher,
execution log, metrics) and the execution-log query endpoint of
`backend/app/api/api_v1/endpoints/mcp.py`, together with the request-schema
constraints of `backend/app/schemas/mcp.py`.

Modelling conventions:
* Python runtime values are the inductive `PyVal`; `isinstance` is `isInstance`
  (note: Python `bool` is a subclass of `int`).
* Python dicts are association lists (`List (String × PyVal)` etc.) with
  insertion-order semantics (`dictGet`, `dictSet`).
* Clock readings (`datetime.now`) are abstract `Nat` millisecond values
  supplied as inputs; `isoformat` is an injective encoding of a clock value
  into the timestamp string stored in records.
* An async handler is a pure function from its keyword arguments to a
  `HandlerOutcome` (normal return, raised exception, or raised HTTPException),
  awaited to completion by the dispatcher exactly as the source does.
* `HTTPException(code, detail)` is `Err.http code detail`; raising is the
  `Except` monad error.
-/

namespace MCP

/-- Model of Python runtime values as passed to tools, stored in parameter
dicts and log entries. Float payloads are not needed by any dispatcher code
path (only `isinstance` tags are consulted), so the `float` constructor is a
bare tag. -/
inductive PyVal where
  | none
  | bool (b : Bool)
  | int (n : Int)
  | float
  | str (s : String)
  | list (xs : List PyVal)
  | dict (kvs : List (String × PyVal))

/-- The Python types appearing as values of `type_map` in
`MCPServer._get_python_type`: `str`, the tuple `(int, float)`, `int`, `bool`,
`list`, `dict`. -/
inductive PyType where
  | strT
  | numberT
  | intT
  | boolT
  | listT
  | dictT
deriving DecidableEq

/-- Source `MCPServer._get_python_type`: `type_map.get(type_str, str)` — an unknown
type string defaults to `str`. -/
def getPythonType (t : String) : PyType :=
  if t = "string" then .strT
  else if t = "number" then .numberT
  else if t = "integer" then .intT
  else if t = "boolean" then .boolT
  else if t = "array" then .listT
  else if t = "object" then .dictT
  else .strT

/-- Python `isinstance(value, T)` for the types returned by
`_get_python_type`. In Python, `bool` is a subclass of `int`, so a boolean is
an instance of `int` and of the tuple `(int, float)`. -/
def isInstance : PyVal → PyType → Bool
  | .str _, .strT => true
  | .int _, .numberT => true
  | .float, .numberT => true
  | .bool _, .numberT => true
  | .int _, .intT => true
  | .bool _, .intT => true
  | .bool _, .boolT => true
  | .list _, .listT => true
  | .dict _, .dictT => true
  | _, _ => false

/-- Python `d.get(k)` / `d[k]` on an insertion-ordered dict modelled as an
association list. -/
def dictGet (k : String) (m : List (String × α)) : Option α :=
  (m.find? (fun kv => kv.1 = k)).map (fun kv => kv.2)

/-- Python `d[k] = v`: replaces the value in place if the key is present
(preserving insertion order), otherwise appends the binding. -/
def dictSet (k : String) (v : α) (m : List (String × α)) : List (String × α) :=
  if (m.find? (fun kv => kv.1 = k)).isSome then
    m.map (fun kv => if kv.1 = k then (k, v) else kv)
  else
    m ++ [(k, v)]

/-- The slice of a parameter-schema dict value consulted by the dispatcher:
`tool_def.parameters[param].get("type")`. Other keys (description, default,
enum, ...) are never read by `_validate_parameters`. -/
structure ParamSchema where
  type : Option String
deriving DecidableEq

/-- Source `ToolDefinition` (pydantic model in `mcp_server.py`): name, description,
parameter-schema dict, required names (default `[]`), timeout_seconds
(default 30). -/
structure ToolDefinition where
  name : String
  description : String
  parameters : List (String × ParamSchema)
  required : List String := []
  timeout_seconds : Nat := 30

/-- Source `RegisteredAgent` (pydantic model in `mcp_server.py`). Timestamps are the
`isoformat` strings of the clock readings taken at construction. -/
structure RegisteredAgent where
  agent_id : String
  capabilities : List String
  registered_at : String
  last_seen : String
  status : String := "active"
  metadata : List (String × PyVal) := []

/-- Source `ToolExecutionResult` (pydantic model in `mcp_server.py`). -/
structure ToolExecutionResult where
  success : Bool
  result : Option PyVal
  error : Option String := none
  execution_time_ms : Nat
  timestamp : String

/-- One entry of `MCPServer.execution_log` as assembled by
`MCPServer._log_execution`. -/
structure LogEntry where
  execution_id : String
  timestamp : String
  tool : String
  agent_id : String
  parameters : List (String × PyVal)
  status : String
  execution_time_ms : Nat
  result : ToolExecutionResult
  error? : Option String := none

/-- The counter fields of `MCPServer.metrics`. -/
structure Metrics where
  total_requests : Nat := 0
  successful_executions : Nat := 0
  failed_executions : Nat := 0
  active_agents : Nat := 0
deriving DecidableEq

/-- Outcome of awaiting a tool handler: a normal return value, a raised
ordinary exception (message), or a raised `HTTPException`. -/
inductive HandlerOutcome where
  | ok (v : PyVal)
  | exc (msg : String)
  | httpExc (code : Nat) (detail : String)

/-- A tool handler: an async callable receiving keyword arguments (the call
parameters plus the injected `user_context`) and awaited to completion. -/
def Handler : Type := List (String × PyVal) → HandlerOutcome

/-- An error surfaced to the caller: `HTTPException(code, detail)`. -/
inductive Err where
  | http (code : Nat) (detail : String)
deriving DecidableEq

/-- The mutable state of an `MCPServer` instance: `agents`, `tools`,
`execution_log`, `metrics`. -/
structure MCPState where
  agents : List (String × RegisteredAgent) := []
  tools : List (String × (ToolDefinition × Handler)) := []
  execution_log : List LogEntry := []
  metrics : Metrics := {}

/-- Model of `datetime.isoformat()` applied to an abstract clock value: an
injective encoding of the reading into the timestamp string stored in
records. -/
def isoformat (n : Nat) : String :=
  toString n

/-- Source `MCPServer._generate_request_id`: a digest string derived from the current
clock reading. The hash itself is irrelevant to every claim, so the model
keeps only that it is a deterministic function of the reading. -/
def generateRequestId (now : Nat) : String :=
  "id-" ++ toString now

/-- First required name absent from `parameters` — the loop
`for param in tool_def.required: if param not in parameters: raise ...`
reports the first missing one. -/
def findMissingRequired (required : List String) (parameters : List (String × PyVal)) :
    Option String :=
  required.find? (fun p => (dictGet p parameters).isNone)

/-- First supplied `(param, value)` pair failing the structural type check of
`_validate_parameters`: the parameter is declared in the schema, its declared
`"type"` is truthy (present and non-empty), and `isinstance` fails against
`_get_python_type` of it. Returns the parameter and the expected type. -/
def findTypeError (td : ToolDefinition) (parameters : List (String × PyVal)) :
    Option (String × String) :=
  parameters.findSome? (fun pv =>
    match dictGet pv.1 td.parameters with
    | Option.none => Option.none
    | some sch =>
      match sch.type with
      | Option.none => Option.none
      | some t =>
        if t ≠ "" ∧ isInstance pv.2 (getPythonType t) = false then
          some (pv.1, t)
        else Option.none)

/-- Source `MCPServer._validate_parameters`: required-presence check first, then the
per-parameter structural type check; returns the `HTTPException` raised, if
any. -/
def validateParameters (td : ToolDefinition) (parameters : List (String × PyVal)) :
    Option Err :=
  match findMissingRequired td.required parameters with
  | some p => some (.http 400 ("Missing required parameter: " ++ p))
  | Option.none =>
    match findTypeError td parameters with
    | some pt =>
      some (.http 400 ("Parameter " ++ pt.1 ++ " should be of type " ++ pt.2))
    | Option.none => Option.none

/-- Source `MCPServer._log_execution` tail: append the entry, then
`if len(log) > 1000: log = log[-1000:]` (keep the last 1000). -/
def logAppend (log : List LogEntry) (e : LogEntry) : List LogEntry :=
  let l := log ++ [e]
  if 1000 < l.length then l.drop (l.length - 1000) else l

/-- The inputs of one `execute_tool` call, together with the clock readings
the call observes: `startTime` is `datetime.now` at entry (also used for the
`last_seen` touch), `endTime` is `datetime.now` once the handler has returned
or raised (used for `execution_time_ms` and the log/result timestamps). -/
structure Call where
  tool_name : String
  parameters : List (String × PyVal)
  agent_id : String
  request_id? : Option String := Option.none
  user_context? : Option (List (String × PyVal)) := Option.none
  startTime : Nat := 0
  endTime : Nat := 0

/-- Elapsed wall-clock milliseconds of a call. -/
def Call.elapsed (c : Call) : Nat :=
  c.endTime - c.startTime

/-- The `TypeError` message Python produces for a duplicate keyword
argument at the `handler(**parameters, user_context=...)` call site. -/
def duplicateKwargMsg : String :=
  "handler got multiple values for keyword argument user_context"

/-- The keyword arguments the dispatcher passes to the handler:
`handler(**parameters, user_context=user_context or {})`. If `parameters`
itself binds the key `user_context`, Python raises `TypeError` (duplicate
keyword argument) before the handler body runs. -/
def callHandler (h : Handler) (parameters : List (String × PyVal))
    (user_context? : Option (List (String × PyVal))) : HandlerOutcome :=
  if (dictGet "user_context" parameters).isSome then
    .exc duplicateKwargMsg
  else
    h (parameters ++ [("user_context", .dict (match user_context? with
        | some uc => uc
        | Option.none => []))])

/-- The log entry `_log_execution` assembles. -/
def mkLogEntry (execution_id : String) (tool_name agent_id : String)
    (parameters : List (String × PyVal)) (result : ToolExecutionResult)
    (status : String) (execution_time_ms : Nat) (error? : Option String)
    (now : Nat) : LogEntry :=
  { execution_id := execution_id
    timestamp := isoformat now
    tool := tool_name
    agent_id := agent_id
    parameters := parameters
    status := status
    execution_time_ms := execution_time_ms
    result := result
    error? := error? }

/-- Source `execution_id = request_id or self._generate_request_id()`. -/
def executionIdOf (c : Call) : String :=
  match c.request_id? with
  | some r => r
  | Option.none => generateRequestId c.startTime

/-- The `ToolExecutionResult` built on handler success. -/
def successResult (c : Call) (v : PyVal) : ToolExecutionResult :=
  { success := true
    result := some v
    error := Option.none
    execution_time_ms := c.elapsed
    timestamp := isoformat c.endTime }

/-- The `ToolExecutionResult` built on handler failure. -/
def errorResult (c : Call) (msg : String) : ToolExecutionResult :=
  { success := false
    result := Option.none
    error := some msg
    execution_time_ms := c.elapsed
    timestamp := isoformat c.endTime }

/-- The `status="success"` log entry `execute_tool` appends. -/
def successEntry (c : Call) (v : PyVal) : LogEntry :=
  mkLogEntry (executionIdOf c) c.tool_name c.agent_id c.parameters
    (successResult c v) "success" c.elapsed Option.none c.endTime

/-- The `status="error"` log entry `execute_tool` appends. -/
def errorEntry (c : Call) (msg : String) : LogEntry :=
  mkLogEntry (executionIdOf c) c.tool_name c.agent_id c.parameters
    (errorResult c msg) "error" c.elapsed (some msg) c.endTime

/-- Source `MCPServer.execute_tool`, as a pure state transformer. Returns the state
after the call together with the value returned to the caller or the
`HTTPException` that propagates out.

Faithful control flow of the source:
* `total_requests` is incremented first, unconditionally;
* unknown/inactive agent → `HTTPException 403`, re-raised by the
  `except HTTPException: raise` arm — no log entry, no failure counter;
* `last_seen` is touched after the agent check (before tool lookup);
* unknown tool → `HTTPException 404`, same pass-through;
* parameter validation failure → `HTTPException 400`, same pass-through;
* the handler is awaited to completion — `timeout_seconds` is never read;
* a handler `HTTPException` is re-raised without accounting; any other
  exception increments `failed_executions`, appends a `status="error"` log
  entry, and surfaces as `HTTPException 500`;
* a normal return increments `successful_executions`, appends a
  `status="success"` entry and returns the result record. -/
def executeTool (s : MCPState) (c : Call) : MCPState × Except Err ToolExecutionResult :=
  let s := { s with metrics.total_requests := s.metrics.total_requests + 1 }
  match dictGet c.agent_id s.agents with
  | Option.none =>
    (s, .error (.http 403 ("Agent " ++ c.agent_id ++ " is not registered or inactive")))
  | some agent =>
    if agent.status ≠ "active" then
      (s, .error (.http 403 ("Agent " ++ c.agent_id ++ " is not registered or inactive")))
    else
      let s := { s with
        agents := dictSet c.agent_id { agent with last_seen := isoformat c.startTime } s.agents }
      match dictGet c.tool_name s.tools with
      | Option.none =>
        (s, .error (.http 404 ("Tool " ++ c.tool_name ++ " not found")))
      | some th =>
        match validateParameters th.1 c.parameters with
        | some err => (s, .error err)
        | Option.none =>
          match callHandler th.2 c.parameters c.user_context? with
          | .ok v =>
            let s := { s with
              metrics.successful_executions := s.metrics.successful_executions + 1,
              execution_log := logAppend s.execution_log (successEntry c v) }
            (s, .ok (successResult c v))
          | .httpExc code detail =>
            (s, .error (.http code detail))
          | .exc msg =>
            let s := { s with
              metrics.failed_executions := s.metrics.failed_executions + 1,
              execution_log := logAppend s.execution_log (errorEntry c msg) }
            (s, .error (.http 500 ("Tool execution failed: " ++ msg)))

/-- Source `MCPServer.register_agent`: rejects only an empty `agent_id`
(`ValueError`, surfaced by the endpoint as a 400); otherwise creates or
replaces the record with status `active` and both timestamps set to now, and
recomputes the `active_agents` metric. -/
def registerAgent (s : MCPState) (agent_id : String) (capabilities : List String)
    (metadata : List (String × PyVal)) (now : Nat) :
    Except Err (MCPState × RegisteredAgent) :=
  if agent_id = "" then
    .error (.http 400 "Agent registration failed: Agent ID cannot be empty")
  else
    let agent : RegisteredAgent :=
      { agent_id := agent_id
        capabilities := capabilities
        registered_at := isoformat now
        last_seen := isoformat now
        status := "active"
        metadata := metadata }
    let agents := dictSet agent_id agent s.agents
    .ok ({ s with
      agents := agents,
      metrics.active_agents :=
        (agents.filter (fun kv => kv.2.status = "active")).length }, agent)

/-- A character admitted by the pattern `[a-zA-Z0-9_-]`. -/
def isIdChar (c : Char) : Bool :=
  c.isAlpha || c.isDigit || c = '_' || c = '-'

/-- The declared field constraints of `AgentRegistrationRequest.agent_id` in
`backend/app/schemas/mcp.py`: length in 1..100 and every character matching
`[a-zA-Z0-9_-]`. -/
def agentIdValid (s : String) : Bool :=
  1 ≤ s.length && s.length ≤ 100 && s.toList.all isIdChar

/-- The `/agents/register` path: `AgentRegistrationRequest` schema validation
(agent_id pattern and length, capabilities a list of at least one item)
followed by `MCPServer.register_agent`.

The per-item capability validator of `backend/app/schemas/mcp.py`
(`validate_capabilities`, rejecting capabilities empty after trimming) is
declared at module level, outside any model class, and is therefore never
attached to `AgentRegistrationRequest`; it does not run, so it is absent from
this embedding. -/
def registerAgentEndpoint (s : MCPState) (agent_id : String)
    (capabilities : List String) (metadata : List (String × PyVal)) (now : Nat) :
    Except Err (MCPState × RegisteredAgent) :=
  if agentIdValid agent_id && decide (1 ≤ capabilities.length) then
    registerAgent s agent_id capabilities metadata now
  else
    .error (.http 422 "request validation error")

/-- Query filters of the logs endpoint (`ExecutionLogFilter` in
`backend/app/schemas/mcp.py`). `start_time`/`end_time` are parsed by pydantic
into `datetime` objects, modelled as abstract clock values. -/
structure LogQuery where
  agent_id : Option String := Option.none
  tool_name : Option String := Option.none
  status : Option String := Option.none
  start_time : Option Nat := Option.none
  end_time : Option Nat := Option.none
  page : Nat := 1
  page_size : Nat := 10

/-- Source `PaginatedResponse` of `backend/app/schemas/mcp.py`. -/
structure PaginatedResponse (α : Type) where
  items : List α
  total : Nat
  page : Nat
  page_size : Nat
  total_pages : Nat

/-- Python truthiness of an optional string (`if filter_params.agent_id:`):
true only when present and non-empty. -/
def truthyStr : Option String → Bool
  | some s => s ≠ ""
  | Option.none => false

/-- Python `s >= t` (or `s <= t`) where `s` is the entry timestamp — an
isoformat `str` — and `t` is a `datetime` object: the comparison between the
two types is unsupported and raises `TypeError`. -/
def cmpStrDatetime (_ts : String) (_t : Nat) : Except String Bool :=
  .error "comparison not supported between instances of str and datetime.datetime"

/-- One time-bound pass of the list comprehension
`[log for log in logs if log["timestamp"] >= filter_params.start_time]`
(and symmetrically for `end_time`): elements are compared left to right and
the first comparison raises. -/
def filterByTime (logs : List LogEntry) (t : Nat) : Except String (List LogEntry) :=
  match logs with
  | [] => .ok []
  | e :: es => do
    let keep ← cmpStrDatetime e.timestamp t
    let rest ← filterByTime es t
    pure (if keep then e :: rest else rest)

/-- The pagination tail of `get_execution_logs` (applied to the already
filtered list): `start = (page-1)*page_size`, slice `logs[start:start+size]`,
`total_pages = (total + page_size - 1) // page_size`. -/
def paginateLogs (logs : List LogEntry) (page page_size : Nat) :
    PaginatedResponse LogEntry :=
  { items := (logs.drop ((page - 1) * page_size)).take page_size
    total := logs.length
    page := page
    page_size := page_size
    total_pages := (logs.length + page_size - 1) / page_size }

/-- The `GET /logs/executions` endpoint body (`get_execution_logs` in
`backend/app/api/api_v1/endpoints/mcp.py`): sequential truthiness-guarded
filters over the execution log, then pagination; any exception (in
particular the `TypeError` raised by comparing a timestamp string with a
`datetime`) is caught and surfaced as `HTTPException 500`. -/
def getExecutionLogs (logs : List LogEntry) (q : LogQuery) :
    Except Err (PaginatedResponse LogEntry) :=
  let logs := if truthyStr q.agent_id then
      logs.filter (fun e => e.agent_id = q.agent_id.getD "") else logs
  let logs := if truthyStr q.tool_name then
      logs.filter (fun e => e.tool = q.tool_name.getD "") else logs
  let logs := if truthyStr q.status then
      logs.filter (fun e => e.status = q.status.getD "") else logs
  let afterTimes : Except String (List LogEntry) := do
    let logs ← match q.start_time with
      | some t => filterByTime logs t
      | Option.none => pure logs
    match q.end_time with
      | some t => filterByTime logs t
      | Option.none => pure logs
  match afterTimes with
  | .error msg => .error (.http 500 ("Failed to get execution logs: " ++ msg))
  | .ok logs => .ok (paginateLogs logs q.page q.page_size)

/-- A sequence of completed `execute_tool` calls, run in order. -/
def runCalls (s : MCPState) (cs : List Call) : MCPState :=
  cs.foldl (fun s c => (executeTool s c).1) s

/-- The status of a registered agent, if any. -/
def agentStatus (s : MCPState) (id : String) : Option String :=
  (dictGet id s.agents).map (fun a => a.status)

/-- Whether a call passes every dispatcher precondition against a state:
agent registered and active, tool registered, parameters valid. Preconditions
read only data that `executeTool` never changes (agent existence and status,
the tool registry), so the predicate is stable along a run. -/
def dispatched (s : MCPState) (c : Call) : Bool :=
  decide (agentStatus s c.agent_id = some "active") &&
    (match dictGet c.tool_name s.tools with
     | Option.none => false
     | some th => (validateParameters th.1 c.parameters).isNone)

/-- Whether a call is counted by the success/failure counters: it passes the
preconditions and the awaited handler invocation does not raise an
`HTTPException` (which the dispatcher re-raises without accounting). -/
def counted (s : MCPState) (c : Call) : Bool :=
  dispatched s c &&
    (match dictGet c.tool_name s.tools with
     | Option.none => false
     | some th =>
       match callHandler th.2 c.parameters c.user_context? with
       | .httpExc _ _ => false
       | _ => true)

end MCP

namespace MCP

/-! ## Concrete fixtures used by witnesses and counterexamples -/

/-- A sample execution result, used to populate sample log entries. -/
def sampleResult : ToolExecutionResult :=
  { success := true, result := some (.str "ok"), execution_time_ms := 1,
    timestamp := isoformat 1 }

/-- A sample execution-log entry (a successful `sum` call by agent `a1`). -/
def sampleEntry : LogEntry :=
  { execution_id := "e1", timestamp := isoformat 1, tool := "sum",
    agent_id := "a1", parameters := [], status := "success",
    execution_time_ms := 1, result := sampleResult }

/-- An active registered agent `a1`. -/
def agentA1 : RegisteredAgent :=
  { agent_id := "a1", capabilities := ["math"],
    registered_at := isoformat 0, last_seen := isoformat 0 }

/-- The `sum` tool of the spec scenarios: one required `array` parameter
`numbers`. -/
def sumTool : ToolDefinition :=
  { name := "sum", description := "sum a list",
    parameters := [("numbers", { type := some "array" })],
    required := ["numbers"] }

/-- A server holding agent `a1` and the `sum` tool. -/
def sumState : MCPState :=
  { agents := [("a1", agentA1)],
    tools := [("sum", (sumTool, fun _ => .ok (.int 6)))] }

/-- A call to `sum` by the never-registered agent `ghost`. -/
def ghostCall : Call :=
  { tool_name := "sum", parameters := [("numbers", .list [.int 1])],
    agent_id := "ghost" }

/-- A call to `sum` by `a1` omitting the required `numbers` parameter. -/
def emptyParamsCall : Call :=
  { tool_name := "sum", parameters := [], agent_id := "a1" }

/-- A tool declaring `timeout_seconds = 1` whose handler stands for a
coroutine that sleeps two seconds and then returns normally. -/
def slowTool : ToolDefinition :=
  { name := "slow", description := "sleeps two seconds",
    parameters := [], required := [], timeout_seconds := 1 }

/-- A server holding agent `a1` and the `slow` tool. -/
def slowState : MCPState :=
  { agents := [("a1", agentA1)],
    tools := [("slow", (slowTool, fun _ => .ok (.str "done")))] }

/-- A call to `slow` whose clock readings are 2000 ms apart, twice the
declared one-second timeout. -/
def slowCall : Call :=
  { tool_name := "slow", parameters := [], agent_id := "a1",
    startTime := 0, endTime := 2000 }

/-- A tool with no declared parameters whose handler returns normally. -/
def echoTool : ToolDefinition :=
  { name := "echo", description := "returns a fixed value",
    parameters := [], required := [] }

/-- A server holding agent `a1` and the `echo` tool. -/
def echoState : MCPState :=
  { agents := [("a1", agentA1)],
    tools := [("echo", (echoTool, fun _ => .ok (.str "echoed")))] }

/-- A call to `echo` whose parameters dict itself binds `user_context`. -/
def collidingCall : Call :=
  { tool_name := "echo", parameters := [("user_context", .dict [])],
    agent_id := "a1" }

/-- A tool with one required parameter `n` declared as `integer`. -/
def intTool : ToolDefinition :=
  { name := "incr", description := "adds one",
    parameters := [("n", { type := some "integer" })],
    required := ["n"] }

/-- The agent record produced by registering `a1` with the single empty
capability at clock 42. -/
def capAgent : RegisteredAgent :=
  { agent_id := "a1", capabilities := [""],
    registered_at := isoformat 42, last_seen := isoformat 42 }

/-- The number of calls in a run that pass all preconditions and whose
handler invocation does not raise an `HTTPException`, each call judged
against the state in force when it executes. -/
def countedRun (s : MCPState) (cs : List Call) : Nat :=
  match cs with
  | [] => 0
  | c :: cs => (if counted s c then 1 else 0) + countedRun (executeTool s c).1 cs

/-! ## Helper lemmas -/

/-- Folding `logAppend` from the empty log keeps exactly the most recent
1000 entries: the result is the input sequence with all but its last 1000
elements dropped. -/
theorem logAppend_foldl (es : List LogEntry) :
    List.foldl logAppend [] es = es.drop (es.length - 1000) := by
  induction es using List.reverseRecOn with
  | nil => simp
  | append_singleton l a ih =>
    have hL : (l ++ [a]).length = l.length + 1 := by
      rw [List.length_append]; rfl
    rw [List.foldl_append, List.foldl_cons, List.foldl_nil, ih]
    unfold logAppend
    by_cases hn : l.length < 1000
    · rw [(by omega : l.length - 1000 = 0), List.drop_zero]
      rw [if_neg (by omega : ¬ 1000 < (l ++ [a]).length)]
      rw [(by omega : (l ++ [a]).length - 1000 = 0), List.drop_zero]
    · push_neg at hn
      have hlen : (l.drop (l.length - 1000)).length = 1000 := by
        rw [List.length_drop]; omega
      have hcond : 1000 < (l.drop (l.length - 1000) ++ [a]).length := by
        rw [List.length_append, hlen]; simp
      rw [if_pos hcond, List.length_append, hlen]
      rw [(by simp : (1000 + [a].length - 1000) = 1)]
      rw [List.drop_append_of_le_length (by rw [hlen]; omega)]
      rw [List.drop_drop]
      rw [List.drop_append_of_le_length (by omega)]
      rw [(by omega : l.length - 1000 + 1 = (l ++ [a]).length - 1000)]

/-- One `execute_tool` call increments `total_requests` by exactly one, and
increments the sum of the success and failure counters by one exactly when
the call passes all preconditions and its handler invocation is not an
`HTTPException`. -/
theorem executeTool_metrics_step (s : MCPState) (c : Call) :
    (executeTool s c).1.metrics.total_requests = s.metrics.total_requests + 1 ∧
    (executeTool s c).1.metrics.successful_executions +
        (executeTool s c).1.metrics.failed_executions =
      s.metrics.successful_executions + s.metrics.failed_executions +
        (if counted s c then 1 else 0) := by
  cases hA : dictGet c.agent_id s.agents with
  | none => simp [executeTool, counted, dispatched, agentStatus, hA]
  | some agent =>
    by_cases hSt : agent.status = "active"
    · cases hT : dictGet c.tool_name s.tools with
      | none => simp [executeTool, counted, dispatched, agentStatus, hA, hSt, hT]
      | some th =>
        cases hV : validateParameters th.1 c.parameters with
        | some e => simp [executeTool, counted, dispatched, agentStatus, hA, hSt, hT, hV]
        | none =>
          cases hH : callHandler th.2 c.parameters c.user_context? with
          | ok v =>
            simp [executeTool, counted, dispatched, agentStatus, hA, hSt, hT, hV, hH]
            omega
          | exc m =>
            simp [executeTool, counted, dispatched, agentStatus, hA, hSt, hT, hV, hH]
            omega
          | httpExc code detail =>
            simp [executeTool, counted, dispatched, agentStatus, hA, hSt, hT, hV, hH]
    · simp [executeTool, counted, dispatched, agentStatus, hA, hSt]

end MCP

namespace MCP

/-! ## Claim theorems -/

/-- C1 (counterexample): the claim says a handler exceeding the tool's
`timeout_seconds` deadline must fail with a `TimeoutError`-classified error
on the failure path. On the `slow` tool (`timeout_seconds = 1`) whose handler
completes normally after 2000 ms of wall-clock time, `execute_tool` instead
returns a successful result carrying the full elapsed time, appends a
`status="success"` log entry and leaves `failed_executions` at zero: no
deadline is applied. -/
theorem timeout_unenforced :
    1000 * slowTool.timeout_seconds < slowCall.elapsed ∧
    (executeTool slowState slowCall).2 = .ok (successResult slowCall (.str "done")) ∧
    (successResult slowCall (.str "done")).success = true ∧
    (executeTool slowState slowCall).1.metrics.failed_executions = 0 ∧
    (executeTool slowState slowCall).1.execution_log.map (fun e => e.status) = ["success"] :=
  ⟨by decide, rfl, rfl, rfl, rfl⟩

/-- C1 (amended): `execute_tool` awaits the handler to completion with no
deadline — `timeout_seconds` is never consulted. Whenever the preconditions
pass and the handler returns normally, the call succeeds with
`execution_time_ms` equal to the full elapsed wall-clock time, even when
that elapsed time exceeds `timeout_seconds`; only handler exceptions take
the failure path. -/
theorem handler_awaited_no_deadline (s : MCPState) (c : Call) (agent : RegisteredAgent)
    (td : ToolDefinition) (hd : Handler) (v : PyVal)
    (hA : dictGet c.agent_id s.agents = some agent)
    (hSt : agent.status = "active")
    (hT : dictGet c.tool_name s.tools = some (td, hd))
    (hV : validateParameters td c.parameters = Option.none)
    (hH : callHandler hd c.parameters c.user_context? = .ok v)
    (hSlow : 1000 * td.timeout_seconds < c.elapsed) :
    (executeTool s c).2 = .ok (successResult c v) ∧
    (executeTool s c).1.metrics.successful_executions = s.metrics.successful_executions + 1 ∧
    (executeTool s c).1.metrics.failed_executions = s.metrics.failed_executions ∧
    (executeTool s c).1.execution_log = logAppend s.execution_log (successEntry c v) := by
  simp [executeTool, hA, hSt, hT, hV, hH]

/-- C1 (witness): the amended theorem instantiated on the `slow` tool with a
2000 ms elapsed time against its one-second declared timeout. -/
theorem handler_awaited_no_deadline_witness :
    dictGet slowCall.agent_id slowState.agents = some agentA1 ∧
    dictGet slowCall.tool_name slowState.tools = some (slowTool, fun _ => .ok (.str "done")) ∧
    validateParameters slowTool slowCall.parameters = Option.none ∧
    1000 * slowTool.timeout_seconds < slowCall.elapsed ∧
    ((executeTool slowState slowCall).2 = .ok (successResult slowCall (.str "done")) ∧
      (executeTool slowState slowCall).1.metrics.successful_executions =
        slowState.metrics.successful_executions + 1 ∧
      (executeTool slowState slowCall).1.metrics.failed_executions =
        slowState.metrics.failed_executions ∧
      (executeTool slowState slowCall).1.execution_log =
        logAppend slowState.execution_log (successEntry slowCall (.str "done"))) :=
  ⟨by rfl, by rfl, by rfl, by decide,
    handler_awaited_no_deadline slowState slowCall agentA1 slowTool
      (fun _ => .ok (.str "done")) (.str "done") (by rfl) rfl (by rfl) (by rfl)
      (by rfl) (by decide)⟩

/-- C2 (counterexample): one `execute_tool` call by a never-registered agent
on a fresh server increments `total_requests` (to 1) even though the
preconditions fail, and leaves both outcome counters at zero, so
`successful_executions + failed_executions = total_requests` is violated
after a completed call. -/
theorem metrics_invariant_fails :
    (executeTool {} ghostCall).1.metrics.total_requests = 1 ∧
    (executeTool {} ghostCall).1.metrics.successful_executions +
        (executeTool {} ghostCall).1.metrics.failed_executions ≠
      (executeTool {} ghostCall).1.metrics.total_requests :=
  ⟨rfl, by decide⟩

/-- C2 (amended): `total_requests` is incremented unconditionally at the
start of every `execute_tool` call, including calls whose preconditions
fail; after any finite sequence of completed calls,
`successful_executions + failed_executions` grows by exactly the number of
calls that passed all preconditions and whose handler invocation did not
raise an `HTTPException` (each call judged against the state in force when
it executed), so the spec equality holds only when every call reached the
handler. -/
theorem metrics_accounting (s : MCPState) (cs : List Call) :
    (runCalls s cs).metrics.total_requests = s.metrics.total_requests + cs.length ∧
    (runCalls s cs).metrics.successful_executions +
        (runCalls s cs).metrics.failed_executions =
      s.metrics.successful_executions + s.metrics.failed_executions + countedRun s cs := by
  induction cs generalizing s with
  | nil => simp [runCalls, countedRun]
  | cons c cs ih =>
    have hstep := executeTool_metrics_step s c
    have hrun : runCalls s (c :: cs) = runCalls (executeTool s c).1 cs := rfl
    obtain ⟨ih1, ih2⟩ := ih (executeTool s c).1
    rw [hrun]
    constructor
    · rw [ih1, hstep.1, List.length_cons]; omega
    · rw [ih2, hstep.2]
      simp only [countedRun]
      by_cases hc : counted s c <;> simp [hc] <;> omega

/-- C3 (counterexample): the claim says a call missing a required parameter
appends one `status="error"` log entry and increments `failed_executions`.
Calling `sum` with empty parameters does raise the `ValidationError` naming
`numbers`, but the 400 `HTTPException` is re-raised by the
`except HTTPException: raise` arm before any accounting: the log stays empty
and `failed_executions` stays zero. -/
theorem missing_param_not_logged :
    (executeTool sumState emptyParamsCall).2 =
      .error (.http 400 "Missing required parameter: numbers") ∧
    (executeTool sumState emptyParamsCall).1.execution_log = [] ∧
    (executeTool sumState emptyParamsCall).1.metrics.failed_executions = 0 :=
  ⟨rfl, rfl, rfl⟩

/-- C3 (amended): when a registered active agent calls a registered tool
with a required parameter missing, the call fails with a `ValidationError`
naming the (first) missing parameter, but no `ExecutionLogEntry` is appended
and `failed_executions` is unchanged; only `total_requests` is
incremented. -/
theorem missing_param_validation (s : MCPState) (c : Call) (agent : RegisteredAgent)
    (td : ToolDefinition) (hd : Handler) (p : String)
    (hA : dictGet c.agent_id s.agents = some agent)
    (hSt : agent.status = "active")
    (hT : dictGet c.tool_name s.tools = some (td, hd))
    (hM : findMissingRequired td.required c.parameters = some p) :
    (executeTool s c).2 = .error (.http 400 ("Missing required parameter: " ++ p)) ∧
    (executeTool s c).1.execution_log = s.execution_log ∧
    (executeTool s c).1.metrics.failed_executions = s.metrics.failed_executions ∧
    (executeTool s c).1.metrics.total_requests = s.metrics.total_requests + 1 := by
  simp [executeTool, hA, hSt, hT, validateParameters, hM]

/-- C3 (witness): the amended theorem instantiated on the spec scenario of
agent `a1` calling `sum` with an empty parameters dict. -/
theorem missing_param_validation_witness :
    dictGet emptyParamsCall.agent_id sumState.agents = some agentA1 ∧
    agentA1.status = "active" ∧
    findMissingRequired sumTool.required emptyParamsCall.parameters = some "numbers" ∧
    ((executeTool sumState emptyParamsCall).2 =
        .error (.http 400 ("Missing required parameter: " ++ "numbers")) ∧
      (executeTool sumState emptyParamsCall).1.execution_log = sumState.execution_log ∧
      (executeTool sumState emptyParamsCall).1.metrics.failed_executions =
        sumState.metrics.failed_executions ∧
      (executeTool sumState emptyParamsCall).1.metrics.total_requests =
        sumState.metrics.total_requests + 1) :=
  ⟨by rfl, rfl, by rfl,
    missing_param_validation sumState emptyParamsCall agentA1 sumTool
      (fun _ => .ok (.int 6)) "numbers" (by rfl) rfl (by rfl) (by rfl)⟩

/-- C4: the execution log never exceeds 1000 entries after any completed
append, and appending 1200 entries sequentially from an empty log leaves
exactly the last 1000 in their original relative order (the oldest 200
evicted first): the fold of `logAppend` equals the input sequence with all
but its last 1000 entries dropped. -/
theorem execution_log_bounded (es : List LogEntry) :
    (List.foldl logAppend [] es).length ≤ 1000 ∧
    (es.length = 1200 → List.foldl logAppend [] es = es.drop 200) := by
  constructor
  · rw [logAppend_foldl, List.length_drop]; omega
  · intro h; rw [logAppend_foldl, h]

/-- C4 (witness): the theorem instantiated on a concrete sequence of 1200
entries. -/
theorem execution_log_bounded_witness :
    (List.replicate 1200 sampleEntry).length = 1200 ∧
    List.foldl logAppend [] (List.replicate 1200 sampleEntry) =
      (List.replicate 1200 sampleEntry).drop 200 :=
  ⟨by rw [List.length_replicate],
    (execution_log_bounded (List.replicate 1200 sampleEntry)).2
      (by rw [List.length_replicate])⟩

/-- C5: a call by an agent absent from the registry fails with the 403
`AuthorizationError` ("agent not registered or inactive") for every tool
name and parameters mapping, and no execution-log entry is appended. -/
theorem unregistered_agent_authorization (s : MCPState) (c : Call)
    (h : dictGet c.agent_id s.agents = Option.none) :
    (executeTool s c).2 =
      .error (.http 403 ("Agent " ++ c.agent_id ++ " is not registered or inactive")) ∧
    (executeTool s c).1.execution_log = s.execution_log := by
  simp [executeTool, h]

/-- C5 (witness): the theorem instantiated on the spec scenario of the
never-registered agent `ghost` calling the valid `sum` tool. -/
theorem unregistered_agent_authorization_witness :
    dictGet ghostCall.agent_id sumState.agents = Option.none ∧
    ((executeTool sumState ghostCall).2 =
      .error (.http 403 ("Agent " ++ ghostCall.agent_id ++ " is not registered or inactive")) ∧
     (executeTool sumState ghostCall).1.execution_log = sumState.execution_log) :=
  ⟨by rfl, unregistered_agent_authorization sumState ghostCall (by rfl)⟩

/-- C6: for every filtered item list, page ≥ 1 and page size in [1, 100],
pagination reports `total_pages` equal to the ceiling of `total / page_size`
(`Nat.ceilDiv`), and a page beyond `total_pages` yields an empty item slice
with `total` still the full filtered count — no error. -/
theorem pagination_pages (items : List LogEntry) (page page_size : Nat)
    (hp : 1 ≤ page) (h1 : 1 ≤ page_size) (h2 : page_size ≤ 100) :
    (paginateLogs items page page_size).total_pages = items.length ⌈/⌉ page_size ∧
    ((paginateLogs items page page_size).total_pages < page →
      (paginateLogs items page page_size).items = [] ∧
      (paginateLogs items page page_size).total = items.length) := by
  constructor
  · rw [Nat.ceilDiv_eq_add_pred_div]; rfl
  · intro hlt
    refine ⟨?_, rfl⟩
    have hdm := Nat.div_add_mod (items.length + page_size - 1) page_size
    have hml : (items.length + page_size - 1) % page_size < page_size :=
      Nat.mod_lt _ (by omega)
    have htp : items.length ≤ (paginateLogs items page page_size).total_pages * page_size := by
      simp only [paginateLogs]
      rw [Nat.mul_comm]
      omega
    have hbound : items.length ≤ (page - 1) * page_size := by
      have h3 : (paginateLogs items page page_size).total_pages ≤ page - 1 := by omega
      calc items.length ≤ (paginateLogs items page page_size).total_pages * page_size := htp
        _ ≤ (page - 1) * page_size := Nat.mul_le_mul_right _ h3
    show ((items.drop ((page - 1) * page_size)).take page_size) = []
    rw [List.drop_eq_nil_of_le hbound, List.take_nil]

/-- C6 (witness): the theorem instantiated on a one-entry list with
page 5 of size 3, a page beyond the single existing page. -/
theorem pagination_pages_witness :
    1 ≤ 5 ∧ 1 ≤ 3 ∧ 3 ≤ 100 ∧
    ((paginateLogs [sampleEntry] 5 3).total_pages = [sampleEntry].length ⌈/⌉ 3 ∧
      ((paginateLogs [sampleEntry] 5 3).total_pages < 5 →
        (paginateLogs [sampleEntry] 5 3).items = [] ∧
        (paginateLogs [sampleEntry] 5 3).total = [sampleEntry].length)) :=
  ⟨by decide, by decide, by decide,
    pagination_pages [sampleEntry] 5 3 (by decide) (by decide) (by decide)⟩

/-- C7 (code bug): entries store `timestamp` as an isoformat string while
`start_time`/`end_time` arrive as `datetime` objects, so the comparison in
the time-filter list comprehensions raises `TypeError` as soon as an entry
is compared; the endpoint converts it into an `HTTPException 500` instead of
returning the inclusively filtered sequence the claim (and spec) describe.
Queries using only the non-time filters still paginate normally. -/
theorem time_filter_type_error :
    (getExecutionLogs [sampleEntry] { start_time := some 5 } =
      .error (.http 500 ("Failed to get execution logs: " ++
        "comparison not supported between instances of str and datetime.datetime"))) ∧
    (getExecutionLogs [sampleEntry] { end_time := some 7 } =
      .error (.http 500 ("Failed to get execution logs: " ++
        "comparison not supported between instances of str and datetime.datetime"))) ∧
    (getExecutionLogs [sampleEntry] { agent_id := some "a1", status := some "success" } =
      .ok (paginateLogs [sampleEntry] 1 10)) :=
  ⟨rfl, rfl, rfl⟩

/-- C8 (code bug): registering agent `a1` with the single capability `""`
(empty, hence empty after trimming) succeeds instead of failing with the
`ValidationError` the claim requires: the per-item capability validator in
`backend/app/schemas/mcp.py` is declared at module level and never attached
to `AgentRegistrationRequest`, so the record is created with status
`active` and both timestamps set to the current clock. -/
theorem empty_capability_accepted :
    registerAgentEndpoint {} "a1" [""] [] 42 =
      .ok ({ agents := [("a1", capAgent)], metrics := { active_agents := 1 } }, capAgent) ∧
    capAgent.capabilities = [""] ∧
    capAgent.status = "active" ∧
    capAgent.registered_at = isoformat 42 ∧
    capAgent.last_seen = isoformat 42 :=
  ⟨rfl, rfl, rfl, rfl, rfl⟩

/-- C9: a Python boolean passes the dispatcher's structural type check for
parameters declared `integer` or `number`, because `bool` is a subclass of
`int` and `isinstance` accepts it against both `int` and `(int, float)`;
consequently `_validate_parameters` accepts a boolean argument for such a
parameter and `execute_tool` raises no `ValidationError` for it. -/
theorem bool_passes_numeric_check (b : Bool) :
    isInstance (PyVal.bool b) (getPythonType "integer") = true ∧
    isInstance (PyVal.bool b) (getPythonType "number") = true ∧
    ∀ (td : ToolDefinition) (p : String) (sch : ParamSchema),
      td.parameters = [(p, sch)] →
      td.required.all (fun r => r = p) = true →
      (sch.type = some "integer" ∨ sch.type = some "number") →
      validateParameters td [(p, PyVal.bool b)] = Option.none := by
  refine ⟨rfl, rfl, ?_⟩
  intro td p sch hpar hreq htype
  unfold validateParameters
  have hm : findMissingRequired td.required [(p, PyVal.bool b)] = Option.none := by
    unfold findMissingRequired
    rw [List.find?_eq_none]
    intro q hq
    have hqp : q = p := of_decide_eq_true (List.all_eq_true.mp hreq q hq)
    subst hqp
    simp [dictGet]
  rw [hm]
  have ht : findTypeError td [(p, PyVal.bool b)] = Option.none := by
    unfold findTypeError
    rw [hpar]
    rcases htype with h | h <;>
      simp [List.findSome?_cons, dictGet, h, getPythonType, isInstance]
  rw [ht]

/-- C9 (witness): the theorem instantiated on the `incr` tool, which
declares its required parameter `n` as `integer`, called with the boolean
`True`. -/
theorem bool_passes_numeric_check_witness :
    intTool.parameters = [("n", { type := some "integer" })] ∧
    intTool.required.all (fun r => r = "n") = true ∧
    (({ type := some "integer" } : ParamSchema).type = some "integer" ∨
      ({ type := some "integer" } : ParamSchema).type = some "number") ∧
    validateParameters intTool [("n", PyVal.bool true)] = Option.none :=
  ⟨rfl, by decide, Or.inl rfl,
    (bool_passes_numeric_check true).2.2 intTool "n" { type := some "integer" }
      rfl (by decide) (Or.inl rfl)⟩

/-- C10: when the parameters dict itself binds the key `user_context` and
all preconditions pass, the `handler(**parameters, user_context=...)` call
site raises `TypeError` (duplicate keyword argument) before any handler
body runs — the conclusion holds for every stored handler `hd`, so the
caller-supplied value never reaches one — and the call takes the ordinary
failure path: `failed_executions` is incremented, one `status="error"` log
entry is appended, and the caller receives the 500 error. -/
theorem user_context_collision (s : MCPState) (c : Call) (agent : RegisteredAgent)
    (td : ToolDefinition) (hd : Handler)
    (hA : dictGet c.agent_id s.agents = some agent)
    (hSt : agent.status = "active")
    (hT : dictGet c.tool_name s.tools = some (td, hd))
    (hV : validateParameters td c.parameters = Option.none)
    (hDup : (dictGet "user_context" c.parameters).isSome = true) :
    (executeTool s c).2 = .error (.http 500 ("Tool execution failed: " ++ duplicateKwargMsg)) ∧
    (executeTool s c).1.metrics.failed_executions = s.metrics.failed_executions + 1 ∧
    (executeTool s c).1.execution_log =
      logAppend s.execution_log (errorEntry c duplicateKwargMsg) := by
  simp [executeTool, hA, hSt, hT, hV, callHandler, hDup]

/-- C10 (witness): the theorem instantiated on the `echo` tool called with a
parameters dict binding `user_context`, whose handler would otherwise
succeed. -/
theorem user_context_collision_witness :
    dictGet collidingCall.agent_id echoState.agents = some agentA1 ∧
    dictGet collidingCall.tool_name echoState.tools =
      some (echoTool, fun _ => .ok (.str "echoed")) ∧
    validateParameters echoTool collidingCall.parameters = Option.none ∧
    (dictGet "user_context" collidingCall.parameters).isSome = true ∧
    ((executeTool echoState collidingCall).2 =
        .error (.http 500 ("Tool execution failed: " ++ duplicateKwargMsg)) ∧
      (executeTool echoState collidingCall).1.metrics.failed_executions =
        echoState.metrics.failed_executions + 1 ∧
      (executeTool echoState collidingCall).1.execution_log =
        logAppend echoState.execution_log (errorEntry collidingCall duplicateKwargMsg)) :=
  ⟨by rfl, by rfl, by rfl, by rfl,
    user_context_collision echoState collidingCall agentA1 echoTool
      (fun _ => .ok (.str "echoed")) (by rfl) rfl (by rfl) (by rfl) (by rfl)⟩

end MCP
